import Mathlib

/-!
# Verification of the flask-io-validator request-validation layer

A shallow embedding, in Lean 4, of `src/flask_io_validator/core.py` and
`src/flask_io_validator/schemas.py`: the URL-variable validator
(`validate_url_vars`) and the request-part validator
(`validate_request_vals`, instantiated for the request body and the query
arguments).

Modelling conventions:
* Python runtime values (URL-variable values, JSON bodies, query strings,
  handler keyword arguments, validated pydantic model instances) are all
  drawn from one abstract type `V`, since Python is untyped.
* Python `dict`s are association lists with the first binding of a key
  authoritative (`dictLookup`), insertion/override given by `dictInsert`,
  and the dict-literal merge `\x7b**a, **b\x7d` given by `dictMerge`.
* Sets of names (`request.url_rule.arguments`, the signature's parameter
  name set, `RESERVED_KWARGS`) are `Finset String`.
* The pydantic engine (`pydantic.create_model` + model instantiation +
  `.dict()`) is an abstract function parameter `engine`; its failure mode
  is a list of `EngineError` records mirroring `pydantic.ValidationError
  .errors()` entries (`type` = rule name, `loc` = error location path,
  `msg` = message).
* `RESERVED_KWARGS`, `REQUEST_BODY_PARAM` and `REQUEST_ARGS_KWARG` come
  from `consts.py`, which is not part of the sources; per the spec they
  are fixed constants, so every result below is quantified over an
  arbitrary reserved set and slot name, which only strengthens the
  statements.
* The wrapper functions return a `Decision` recording whether a
  configuration exception is raised, an HTTP error response returned, or
  the handler invoked (and with which arguments); `runDecision` then
  applies the actual handler, so that "the handler is not invoked" and
  "the return value is passed through unchanged" are directly expressible.
-/

set_option autoImplicit false

namespace FlaskIOValidator

/-- The string enum `ErrorType` from `schemas.py`, with members
`GENERIC = "generic_error"` and `VALIDATION = "validation_error"`. -/
inductive ErrorType where
  | generic
  | validation
  deriving DecidableEq

/-- The wire value of each `ErrorType` member. -/
def ErrorType.value : ErrorType → String
  | .generic => "generic_error"
  | .validation => "validation_error"

/-- The `APICallError` record from `schemas.py`: `type : ErrorType`,
`subtype : Optional[str]` (pydantic defaults an unset `Optional` field to
`None`), `message : str`. -/
structure APICallError where
  type : ErrorType
  subtype : Option String
  message : String
  deriving DecidableEq

/-- One entry of `pydantic.ValidationError.errors()`: a dict with the
rule name under `"type"`, the error location path under `"loc"` and the
human-readable message under `"msg"`. -/
structure EngineError where
  type : String
  loc : List String
  msg : String
  deriving DecidableEq

/-- The `APICallError` built from one engine error in both `except
pydantic.ValidationError` branches of `core.py`:
`APICallError(type=ErrorType.VALIDATION, subtype=error["type"],
message=".".join(error["loc"]) + ": " + error["msg"])`. -/
def mkValidationError (e : EngineError) : APICallError :=
  { type := ErrorType.validation
    subtype := some e.type
    message := String.intercalate "." e.loc ++ ": " ++ e.msg }

/-- Modelled from the spec: the four configuration-error exception classes
are imported in `core.py` from `exceptions.py`, a module that is not part
of the sources; the spec states they are "raised as distinct exception
kinds", so they are modelled as distinct constructors, each carrying the
data interpolated into the exception message (`typeError` is Python's
builtin `TypeError`, raised for a slot annotation that is not a
`pydantic.BaseModel` subclass). -/
inductive ConfigError where
  | reservedKeyword (illegal : Finset String)
  | missingParameter (missing : Finset String)
  | missingURLVariable (extra : Finset String)
  | missingTypeHint (missing : Finset String)
  | typeError (param : String)
  deriving DecidableEq

/-- The observable effect of one call of a wrapped handler: a raised
configuration exception, an HTTP error response whose body is a bare list
of error objects, an HTTP error response whose body is a single error
object, or an invocation of the decorated handler with the given
positional and keyword arguments. -/
inductive Decision (V : Type) where
  | fatal (e : ConfigError)
  | errorList (errors : List APICallError) (status : Nat)
  | errorSingle (error : APICallError) (status : Nat)
  | invoke (args : List V) (kwargs : List (String × V))
  deriving DecidableEq

/-- Python `dict` lookup on an association list whose first binding of a
key is authoritative. -/
def dictLookup {V : Type} (d : List (String × V)) (k : String) : Option V :=
  (d.find? (fun p => p.1 == k)).map (fun p => p.2)

/-- Python `dict` insertion `d[k] = v` on an association list: overrides
an existing binding of `k` in place, otherwise appends the new binding. -/
def dictInsert {V : Type} : List (String × V) → String → V → List (String × V)
  | [], k, v => [(k, v)]
  | p :: d, k, v => if p.1 == k then (k, v) :: d else p :: dictInsert d k v

/-- The Python dict literal `\x7b**a, **b\x7d`: the bindings of `a`, then
the bindings of `b` inserted in order, each overriding a same-named
binding of `a`. -/
def dictMerge {V : Type} (a b : List (String × V)) : List (String × V) :=
  b.foldl (fun acc p => dictInsert acc p.1 p.2) a

/-- Instantiation `StrictBaseModel(**vals)` succeeds exactly when `vals` is empty:
`StrictBaseModel` from `schemas.py` declares no fields and sets
`Config.extra = Extra.forbid`, so every supplied field is rejected as an
unknown extra field. -/
def strictBaseModelAccepts {V : Type} (vals : List (String × V)) : Bool :=
  vals.isEmpty

/-- The abstract pydantic engine used by `validate_url_vars`: given the
field list of the ephemeral `UrlVarsModel` (name, annotation pairs, every
field required) and the actual URL-variable values, it either fails with
the `errors()` list of a `pydantic.ValidationError` or returns
`validated_values.dict()`. -/
def UrlEngine (A V : Type) : Type :=
  List (String × A) → List (String × V) → Except (List EngineError) (List (String × V))

/-- The transformed function produced by `validate_url_vars` in
`core.py`, as the `Decision` it takes on one call.

Inputs, in the order the Python code reads them: the reserved keyword set
`RESERVED_KWARGS`, the schema engine, the handler's parameter name set
(`inspect.signature(decorated_f).parameters.keys()`), the handler's
`__annotations__` dict, the route's declared variable set
(`request.url_rule.arguments`), the actual URL-variable values
(`request.view_args`), and the call's positional and keyword arguments. -/
def validate_url_vars_decision {A V : Type}
    (reserved_kwargs : Finset String) (engine : UrlEngine A V)
    (params : Finset String) (annots : List (String × A))
    (declared_url_vars : Finset String) (url_vars_values : List (String × V))
    (args : List V) (kwargs : List (String × V)) : Decision V :=
  let illegal_url_vars := declared_url_vars ∩ reserved_kwargs
  if illegal_url_vars ≠ ∅ then
    .fatal (.reservedKeyword illegal_url_vars)
  else
    let non_reserved_params := params \ reserved_kwargs
    if declared_url_vars \ non_reserved_params ≠ ∅ then
      .fatal (.missingParameter (declared_url_vars \ non_reserved_params))
    else if non_reserved_params \ declared_url_vars ≠ ∅ then
      .fatal (.missingURLVariable (non_reserved_params \ declared_url_vars))
    else
      let annotated_params := annots.filter (fun p => !decide (p.1 ∈ reserved_kwargs))
      let missing := declared_url_vars \ (annotated_params.map Prod.fst).toFinset
      if missing ≠ ∅ then
        .fatal (.missingTypeHint missing)
      else
        match engine annotated_params url_vars_values with
        | .error errors => .errorList (errors.map mkValidationError) 400
        | .ok validated_values => .invoke args (dictMerge kwargs validated_values)

/-- The annotation found for the designated slot parameter in the
handler's `__annotations__`: whether it is a `pydantic.BaseModel`
subclass, whether it is moreover a strict structural schema type (a
`StrictBaseModel` subclass, i.e. `Extra.forbid`), and — as
`Schema(**vals)` — either the `errors()` list of a
`pydantic.ValidationError` or the validated model instance. The code in
`core.py` consults only `issubclass(Schema, pydantic.BaseModel)`;
strictness is recorded here so that statements about non-strict
annotations can be made, but `validate_request_vals_decision` never
reads it, exactly as the source never checks it. -/
structure SchemaAnnot (V : Type) where
  isBaseModelSubclass : Bool
  isStrictBaseModelSubclass : Bool
  instantiate : List (String × V) → Except (List EngineError) V

/-- The transformed function produced by
`validate_request_vals(param_name, request_vals_getter)` in `core.py`, as
the `Decision` it takes on one call.

`request_vals` is the mapping returned by `request_vals_getter()` (the
getter reads only the ambient request, so its two calls on the
unexpected-values path agree); `strFn` is Python's `str` rendering of
that mapping, used in the unexpected-values message. -/
def validate_request_vals_decision {V : Type}
    (param_name : String) (strFn : List (String × V) → String)
    (params : Finset String) (annots : List (String × SchemaAnnot V))
    (request_vals : List (String × V))
    (args : List V) (kwargs : List (String × V)) : Decision V :=
  if param_name ∈ params then
    match dictLookup annots param_name with
    | none => .fatal (.missingTypeHint {param_name})
    | some Schema =>
      if ¬ Schema.isBaseModelSubclass then
        .fatal (.typeError param_name)
      else
        match Schema.instantiate request_vals with
        | .error errors => .errorList (errors.map mkValidationError) 400
        | .ok inst => .invoke args (dictInsert kwargs param_name inst)
  else
    if strictBaseModelAccepts request_vals then
      .invoke args kwargs
    else
      .errorSingle
        { type := ErrorType.validation
          subtype := none
          message := param_name ++ " is expected to be empty but got "
            ++ strFn request_vals }
        400

/-- What one call of a wrapped handler evaluates to once the decision is
carried out against the actual handler. -/
inductive RunResult (R : Type) where
  | raised (e : ConfigError)
  | responseList (errors : List APICallError) (status : Nat)
  | responseSingle (error : APICallError) (status : Nat)
  | handlerResult (r : R)
  deriving DecidableEq

/-- Carry out a `Decision` against the decorated handler: an `invoke`
decision calls the handler with exactly the recorded arguments and
returns its value unchanged. -/
def runDecision {V R : Type} (call : List V → List (String × V) → R) :
    Decision V → RunResult R
  | .fatal e => .raised e
  | .errorList errors status => .responseList errors status
  | .errorSingle e status => .responseSingle e status
  | .invoke args kwargs => .handlerResult (call args kwargs)

/-- The full transformed function of `validate_url_vars`, handler
included. -/
def validate_url_vars_call {A V R : Type}
    (reserved_kwargs : Finset String) (engine : UrlEngine A V)
    (params : Finset String) (annots : List (String × A))
    (call : List V → List (String × V) → R)
    (declared_url_vars : Finset String) (url_vars_values : List (String × V))
    (args : List V) (kwargs : List (String × V)) : RunResult R :=
  runDecision call
    (validate_url_vars_decision reserved_kwargs engine params annots
      declared_url_vars url_vars_values args kwargs)

/-- The full transformed function of `validate_request_vals`, handler
included. -/
def validate_request_vals_call {V R : Type}
    (param_name : String) (strFn : List (String × V) → String)
    (params : Finset String) (annots : List (String × SchemaAnnot V))
    (call : List V → List (String × V) → R)
    (request_vals : List (String × V))
    (args : List V) (kwargs : List (String × V)) : RunResult R :=
  runDecision call
    (validate_request_vals_decision param_name strFn params annots
      request_vals args kwargs)

/-! ## Dictionary lemmas -/

theorem dictLookup_dictInsert_self {V : Type} (d : List (String × V))
    (k : String) (v : V) : dictLookup (dictInsert d k v) k = some v := by
  induction d with
  | nil => simp [dictInsert, dictLookup]
  | cons p d ih =>
    by_cases h : p.1 = k
    · simp [dictInsert, dictLookup, h]
    · simpa [dictInsert, dictLookup, h] using ih

theorem dictLookup_dictInsert_ne {V : Type} (d : List (String × V))
    (k k' : String) (v : V) (h : k' ≠ k) :
    dictLookup (dictInsert d k v) k' = dictLookup d k' := by
  induction d with
  | nil => simp [dictInsert, dictLookup, Ne.symm h]
  | cons p d ih =>
    by_cases hp : p.1 = k
    · simp [dictInsert, dictLookup, hp, Ne.symm h]
    · by_cases hp' : p.1 = k'
      · simp [dictInsert, dictLookup, hp, hp', h]
      · simpa [dictInsert, dictLookup, hp, hp'] using ih

theorem dictMerge_nil {V : Type} (a : List (String × V)) :
    dictMerge a [] = a := rfl

theorem dictMerge_cons {V : Type} (a : List (String × V))
    (p : String × V) (b : List (String × V)) :
    dictMerge a (p :: b) = dictMerge (dictInsert a p.1 p.2) b := rfl

theorem dictLookup_eq_none_of_not_mem {V : Type} (d : List (String × V))
    (k : String) (h : k ∉ d.map Prod.fst) : dictLookup d k = none := by
  induction d with
  | nil => simp [dictLookup]
  | cons p d ih =>
    simp only [List.map_cons, List.mem_cons, not_or] at h
    simpa [dictLookup, Ne.symm h.1] using ih h.2

theorem dictLookup_dictMerge_of_none {V : Type} (a b : List (String × V))
    (k : String) (h : dictLookup b k = none) :
    dictLookup (dictMerge a b) k = dictLookup a k := by
  induction b generalizing a with
  | nil => rfl
  | cons p b ih =>
    by_cases hp : p.1 = k
    · exfalso
      simp [dictLookup, List.find?_cons, hp] at h
    · have hb : dictLookup b k = none := by
        simpa [dictLookup, List.find?_cons, hp] using h
      rw [dictMerge_cons, ih _ hb,
        dictLookup_dictInsert_ne _ _ _ _ (Ne.symm hp)]

theorem dictLookup_dictMerge_of_some {V : Type} (a b : List (String × V))
    (k : String) (v : V) (hnd : (b.map Prod.fst).Nodup)
    (h : dictLookup b k = some v) :
    dictLookup (dictMerge a b) k = some v := by
  induction b generalizing a with
  | nil => simp [dictLookup] at h
  | cons p b ih =>
    simp only [List.map_cons, List.nodup_cons] at hnd
    by_cases hp : p.1 = k
    · have hv : p.2 = v := by simp [dictLookup, List.find?_cons, hp] at h; exact h
      have hb : dictLookup b k = none :=
        dictLookup_eq_none_of_not_mem _ _ (hp ▸ hnd.1)
      rw [dictMerge_cons, dictLookup_dictMerge_of_none _ _ _ hb, hp, hv,
        dictLookup_dictInsert_self]
    · have hb : dictLookup b k = some v := by
        simpa [dictLookup, List.find?_cons, hp] using h
      rw [dictMerge_cons]
      exact ih _ hnd.2 hb

/-! ## Structural-check helper -/

/-- Once the four structural checks of `validate_url_vars` pass, the
decision is determined by the engine's verdict on the ephemeral schema. -/
theorem validate_url_vars_decision_checks_pass {A V : Type}
    (reserved_kwargs : Finset String) (engine : UrlEngine A V)
    (params : Finset String) (annots : List (String × A))
    (declared_url_vars : Finset String) (url_vars_values : List (String × V))
    (args : List V) (kwargs : List (String × V))
    (h1 : declared_url_vars ∩ reserved_kwargs = ∅)
    (h2 : declared_url_vars \ (params \ reserved_kwargs) = ∅)
    (h3 : (params \ reserved_kwargs) \ declared_url_vars = ∅)
    (h4 : declared_url_vars \
      ((annots.filter (fun p => !decide (p.1 ∈ reserved_kwargs))).map
        Prod.fst).toFinset = ∅) :
    validate_url_vars_decision reserved_kwargs engine params annots
        declared_url_vars url_vars_values args kwargs
      = match engine (annots.filter (fun p => !decide (p.1 ∈ reserved_kwargs)))
          url_vars_values with
        | .error errors => .errorList (errors.map mkValidationError) 400
        | .ok validated_values => .invoke args (dictMerge kwargs validated_values) := by
  simp [validate_url_vars_decision, h1, h2, h3, h4]

/-- A fatal decision of `validate_url_vars` never depends on the schema
engine: the configuration exceptions are raised before the ephemeral
schema is built or any value validation performed. -/
theorem validate_url_vars_fatal_engine_independent {A V : Type}
    (reserved_kwargs : Finset String) (engine engine' : UrlEngine A V)
    (params : Finset String) (annots : List (String × A))
    (declared_url_vars : Finset String) (url_vars_values : List (String × V))
    (args : List V) (kwargs : List (String × V)) (e : ConfigError)
    (he : validate_url_vars_decision reserved_kwargs engine params annots
      declared_url_vars url_vars_values args kwargs = .fatal e) :
    validate_url_vars_decision reserved_kwargs engine' params annots
      declared_url_vars url_vars_values args kwargs = .fatal e := by
  by_cases h1 : declared_url_vars ∩ reserved_kwargs = ∅
  · by_cases h2 : declared_url_vars \ (params \ reserved_kwargs) = ∅
    · by_cases h3 : (params \ reserved_kwargs) \ declared_url_vars = ∅
      · by_cases h4 : declared_url_vars \
            ((annots.filter (fun p => !decide (p.1 ∈ reserved_kwargs))).map
              Prod.fst).toFinset = ∅
        · exfalso
          rw [validate_url_vars_decision_checks_pass reserved_kwargs engine
            params annots declared_url_vars url_vars_values args kwargs
            h1 h2 h3 h4] at he
          cases hres : engine
              (annots.filter (fun p => !decide (p.1 ∈ reserved_kwargs)))
              url_vars_values <;>
            rw [hres] at he <;> exact Decision.noConfusion he
        · simp [validate_url_vars_decision, h1, h2, h3, h4] at he ⊢
          exact he
      · simp [validate_url_vars_decision, h1, h2, h3] at he ⊢
        exact he
    · simp [validate_url_vars_decision, h1, h2] at he ⊢
      exact he
  · simp [validate_url_vars_decision, h1] at he ⊢
    exact he

/-! ## Concrete engines and handlers for witnesses -/

/-- A concrete engine that always validates, for witnesses. -/
def engTrivial : UrlEngine Unit String := fun _ _ => Except.ok []

/-- A concrete engine that always fails with one `int_parsing` error on
field `id`, for witnesses. -/
def engFail : UrlEngine Unit String :=
  fun _ _ => Except.error [{ type := "int_parsing", loc := ["id"], msg := "bad" }]

/-- A concrete engine that returns the coerced value `id = "42"`, for
witnesses. -/
def engOk : UrlEngine Unit String := fun _ _ => Except.ok [("id", "42")]

/-! ## Claims about the request-part validator -/

/-- A concrete slot annotation that is not a `pydantic.BaseModel`
subclass, for witnesses. -/
def annotNotModel : SchemaAnnot String :=
  { isBaseModelSubclass := false
    isStrictBaseModelSubclass := false
    instantiate := fun _ => Except.ok "inst" }

/-- A concrete slot annotation that is a plain, non-strict
`pydantic.BaseModel` subclass — a `BaseModel` subclass that is not a
strict structural schema type; with pydantic's default
`Extra.ignore` it instantiates successfully even on a mapping with
unknown fields. -/
def annotPlainModel : SchemaAnnot String :=
  { isBaseModelSubclass := true
    isStrictBaseModelSubclass := false
    instantiate := fun _ => Except.ok "inst" }

/-- C1 (counterexample to the claim as stated): for a handler without the
`"body"` slot parameter and a non-empty extracted body, the single
`APICallError` returned with status 400 has `type = ErrorType.validation`
(wire value `"validation_error"`), not `ErrorType.generic` as the claim
states. -/
theorem C1_counterexample :
    validate_request_vals_decision "body" (fun _ => "x: 1")
        (∅ : Finset String) ([] : List (String × SchemaAnnot String))
        [("x", "1")] [] []
      = .errorSingle
          { type := ErrorType.validation
            subtype := none
            message := "body is expected to be empty but got x: 1" } 400
    ∧ ErrorType.validation ≠ ErrorType.generic := by
  exact ⟨rfl, by decide⟩

/-- C1 (amended): for every handler that does not declare the designated
slot parameter, if the extracted raw value mapping for that request part
is non-empty, the request-part validator returns a single `APICallError`
of kind validation (`type = "validation_error"`, `subtype` unset) whose
message names the slot and the unexpected value, with HTTP status 400,
and the handler is not invoked. -/
theorem C1_undeclared_slot_nonempty_single_error {V : Type}
    (param_name : String) (strFn : List (String × V) → String)
    (params : Finset String) (annots : List (String × SchemaAnnot V))
    (request_vals : List (String × V))
    (args : List V) (kwargs : List (String × V))
    (hnd : param_name ∉ params) (hne : request_vals ≠ []) :
    validate_request_vals_decision param_name strFn params annots
        request_vals args kwargs
      = .errorSingle
          { type := ErrorType.validation
            subtype := none
            message := param_name ++ " is expected to be empty but got "
              ++ strFn request_vals } 400 := by
  simp [validate_request_vals_decision, hnd, strictBaseModelAccepts, hne]

/-- C1 witness: the amended theorem at a concrete input. -/
theorem C1_undeclared_slot_nonempty_single_error_witness :
    validate_request_vals_decision "body" (fun _ => "x: 1")
        (∅ : Finset String) ([] : List (String × SchemaAnnot String))
        [("x", "1")] [] []
      = .errorSingle
          { type := ErrorType.validation
            subtype := none
            message := "body is expected to be empty but got x: 1" } 400 :=
  C1_undeclared_slot_nonempty_single_error "body" (fun _ => "x: 1")
    ∅ [] [("x", "1")] [] [] (by decide) (by decide)

/-- C4 (counterexample to the claim as stated): an annotation that is a
plain `pydantic.BaseModel` subclass but not a strict structural schema
type raises no configuration error at all — `core.py` checks only
`issubclass(Schema, pydantic.BaseModel)`, never strictness — and the
handler is invoked with the instantiated model injected. -/
theorem C4_counterexample :
    annotPlainModel.isBaseModelSubclass = true
    ∧ annotPlainModel.isStrictBaseModelSubclass = false
    ∧ validate_request_vals_decision "body" (fun _ => "")
        ({"body"} : Finset String) [("body", annotPlainModel)]
        [("x", "1")] [] []
      = .invoke [] [("body", "inst")] :=
  ⟨rfl, rfl, rfl⟩

/-- C4 (amended): for every handler that declares the designated slot
parameter, a missing type annotation raises the missing-type-hint
configuration error, and an annotation that is not a
`pydantic.BaseModel` subclass raises the `TypeError` configuration
error; in both cases the decision is a raised exception, not an HTTP
error response. An annotation that is a `BaseModel` subclass — strict
or not — never raises a configuration error. -/
theorem C4_declared_slot_config_errors {V : Type}
    (param_name : String) (strFn : List (String × V) → String)
    (params : Finset String) (annots : List (String × SchemaAnnot V))
    (request_vals : List (String × V))
    (args : List V) (kwargs : List (String × V))
    (hdecl : param_name ∈ params) :
    (dictLookup annots param_name = none →
      validate_request_vals_decision param_name strFn params annots
          request_vals args kwargs
        = .fatal (.missingTypeHint {param_name}))
    ∧ (∀ S : SchemaAnnot V, dictLookup annots param_name = some S →
        S.isBaseModelSubclass = false →
        validate_request_vals_decision param_name strFn params annots
            request_vals args kwargs
          = .fatal (.typeError param_name))
    ∧ (∀ S : SchemaAnnot V, dictLookup annots param_name = some S →
        S.isBaseModelSubclass = true →
        ∀ e : ConfigError,
          validate_request_vals_decision param_name strFn params annots
            request_vals args kwargs ≠ .fatal e) := by
  refine ⟨?_, ?_, ?_⟩
  · intro hnone
    simp [validate_request_vals_decision, hdecl, hnone]
  · intro S hS hsub
    simp [validate_request_vals_decision, hdecl, hS, hsub]
  · intro S hS hsub e he
    simp only [validate_request_vals_decision, if_pos hdecl, hS, hsub,
      not_true_eq_false, ite_false, if_neg] at he
    cases hi : S.instantiate request_vals <;>
      rw [hi] at he <;> exact Decision.noConfusion he

/-- C4 witness: both configuration-error branches, and the absence of a
configuration error for a non-strict `BaseModel` annotation, at
concrete inputs. -/
theorem C4_declared_slot_config_errors_witness :
    (validate_request_vals_decision "body" (fun _ => "")
        ({"body"} : Finset String) ([] : List (String × SchemaAnnot String))
        [] [] []
      = .fatal (.missingTypeHint {"body"}))
    ∧ (validate_request_vals_decision "body" (fun _ => "")
        ({"body"} : Finset String) [("body", annotNotModel)] [] [] []
      = .fatal (.typeError "body"))
    ∧ (validate_request_vals_decision "body" (fun _ => "")
        ({"body"} : Finset String) [("body", annotPlainModel)]
        [("x", "1")] [] []
      ≠ .fatal (.typeError "body")) :=
  ⟨(C4_declared_slot_config_errors "body" (fun _ => "") {"body"} [] [] [] []
      (by decide)).1 rfl,
   (C4_declared_slot_config_errors "body" (fun _ => "") {"body"}
      [("body", annotNotModel)] [] [] [] (by decide)).2.1 annotNotModel rfl rfl,
   (C4_declared_slot_config_errors "body" (fun _ => "") {"body"}
      [("body", annotPlainModel)] [("x", "1")] [] [] (by decide)).2.2
      annotPlainModel rfl rfl (.typeError "body")⟩

/-- C8: for every handler that does not declare the designated slot
parameter, an empty extracted raw value mapping makes the request-part
validator invoke the handler with its positional and keyword arguments
completely unchanged. -/
theorem C8_undeclared_slot_empty_passthrough {V : Type}
    (param_name : String) (strFn : List (String × V) → String)
    (params : Finset String) (annots : List (String × SchemaAnnot V))
    (args : List V) (kwargs : List (String × V))
    (hnd : param_name ∉ params) :
    validate_request_vals_decision param_name strFn params annots
        [] args kwargs
      = .invoke args kwargs := by
  simp [validate_request_vals_decision, hnd, strictBaseModelAccepts]

/-- C8 witness: the theorem at a concrete input. -/
theorem C8_undeclared_slot_empty_passthrough_witness :
    validate_request_vals_decision "body" (fun _ => "")
        (∅ : Finset String) ([] : List (String × SchemaAnnot String))
        [] ["a1"] [("k", "2")]
      = .invoke ["a1"] [("k", "2")] :=
  C8_undeclared_slot_empty_passthrough "body" (fun _ => "") ∅ []
    ["a1"] [("k", "2")] (by decide)

/-- C9: the single error returned for an undeclared slot with non-empty
extracted values carries no subtype (`subtype = none`), while every
schema-validation error object carries `subtype = some` of the
underlying rule name. -/
theorem C9_subtype_presence {V : Type}
    (param_name : String) (strFn : List (String × V) → String)
    (params : Finset String) (annots : List (String × SchemaAnnot V))
    (request_vals : List (String × V))
    (args : List V) (kwargs : List (String × V))
    (hnd : param_name ∉ params) (hne : request_vals ≠ []) :
    (∃ msg, validate_request_vals_decision param_name strFn params annots
        request_vals args kwargs
      = .errorSingle
          { type := ErrorType.validation, subtype := none, message := msg } 400)
    ∧ ∀ e : EngineError, (mkValidationError e).subtype = some e.type := by
  refine ⟨⟨param_name ++ " is expected to be empty but got "
    ++ strFn request_vals, ?_⟩, fun e => rfl⟩
  simp [validate_request_vals_decision, hnd, strictBaseModelAccepts, hne]

/-- C9 witness: the theorem at a concrete input. -/
theorem C9_subtype_presence_witness :
    (∃ msg, validate_request_vals_decision "args" (fun _ => "y: 2")
        (∅ : Finset String) ([] : List (String × SchemaAnnot String))
        [("y", "2")] [] []
      = .errorSingle
          { type := ErrorType.validation, subtype := none, message := msg } 400)
    ∧ ∀ e : EngineError, (mkValidationError e).subtype = some e.type :=
  C9_subtype_presence "args" (fun _ => "y: 2") ∅ [] [("y", "2")] [] []
    (by decide) (by decide)

/-! ## Claims about the URL-variable validator -/

/-- C2: the four structural checks of `validate_url_vars` run in the
fixed order reserved-keyword collision, route variable missing from the
parameters, non-reserved parameter missing from the route variables,
missing type hint; each failing check raises its own configuration
exception (a `fatal` decision, never an HTTP error response), and a
fatal decision is independent of the schema engine, so the ephemeral
schema is built and value validation performed only after all four
checks pass — in particular the reserved-keyword error is raised before
any schema is built. -/
theorem C2_structural_check_order {A V : Type}
    (reserved_kwargs : Finset String) (engine : UrlEngine A V)
    (params : Finset String) (annots : List (String × A))
    (declared_url_vars : Finset String) (url_vars_values : List (String × V))
    (args : List V) (kwargs : List (String × V)) :
    (declared_url_vars ∩ reserved_kwargs ≠ ∅ →
      validate_url_vars_decision reserved_kwargs engine params annots
          declared_url_vars url_vars_values args kwargs
        = .fatal (.reservedKeyword (declared_url_vars ∩ reserved_kwargs)))
    ∧ (declared_url_vars ∩ reserved_kwargs = ∅ →
        declared_url_vars \ (params \ reserved_kwargs) ≠ ∅ →
        validate_url_vars_decision reserved_kwargs engine params annots
            declared_url_vars url_vars_values args kwargs
          = .fatal (.missingParameter
              (declared_url_vars \ (params \ reserved_kwargs))))
    ∧ (declared_url_vars ∩ reserved_kwargs = ∅ →
        declared_url_vars \ (params \ reserved_kwargs) = ∅ →
        (params \ reserved_kwargs) \ declared_url_vars ≠ ∅ →
        validate_url_vars_decision reserved_kwargs engine params annots
            declared_url_vars url_vars_values args kwargs
          = .fatal (.missingURLVariable
              ((params \ reserved_kwargs) \ declared_url_vars)))
    ∧ (declared_url_vars ∩ reserved_kwargs = ∅ →
        declared_url_vars \ (params \ reserved_kwargs) = ∅ →
        (params \ reserved_kwargs) \ declared_url_vars = ∅ →
        declared_url_vars \
          ((annots.filter (fun p => !decide (p.1 ∈ reserved_kwargs))).map
            Prod.fst).toFinset ≠ ∅ →
        validate_url_vars_decision reserved_kwargs engine params annots
            declared_url_vars url_vars_values args kwargs
          = .fatal (.missingTypeHint (declared_url_vars \
              ((annots.filter (fun p => !decide (p.1 ∈ reserved_kwargs))).map
                Prod.fst).toFinset)))
    ∧ (∀ e : ConfigError,
        validate_url_vars_decision reserved_kwargs engine params annots
          declared_url_vars url_vars_values args kwargs = .fatal e →
        ∀ engine' : UrlEngine A V,
          validate_url_vars_decision reserved_kwargs engine' params annots
            declared_url_vars url_vars_values args kwargs = .fatal e) := by
  refine ⟨?_, ?_, ?_, ?_, ?_⟩
  · intro h1
    simp [validate_url_vars_decision, h1]
  · intro h1 h2
    simp [validate_url_vars_decision, h1, h2]
  · intro h1 h2 h3
    simp [validate_url_vars_decision, h1, h2, h3]
  · intro h1 h2 h3 h4
    simp [validate_url_vars_decision, h1, h2, h3, h4]
  · intro e he engine'
    exact validate_url_vars_fatal_engine_independent reserved_kwargs engine
      engine' params annots declared_url_vars url_vars_values args kwargs e he

/-- C2 witness: a reserved keyword among the declared route variables, at
a concrete input, yields the reserved-keyword exception. -/
theorem C2_structural_check_order_witness :
    validate_url_vars_decision ({"body"} : Finset String) engTrivial
        ({"f"} : Finset String) ([] : List (String × Unit))
        ({"body"} : Finset String) ([] : List (String × String)) [] []
      = .fatal (.reservedKeyword (({"body"} : Finset String) ∩ {"body"})) :=
  (C2_structural_check_order {"body"} engTrivial {"f"} [] {"body"} [] [] []).1
    (by decide)

/-- C3: once the structural checks pass, a schema-validation failure
short-circuits the handler and returns the list of engine errors mapped
to `APICallError`s — kind validation, subtype the engine's rule name,
message the error locations joined by dots followed by a colon-space and
the engine's message — with HTTP status 400. -/
theorem C3_schema_failure_short_circuits {A V : Type}
    (reserved_kwargs : Finset String) (engine : UrlEngine A V)
    (params : Finset String) (annots : List (String × A))
    (declared_url_vars : Finset String) (url_vars_values : List (String × V))
    (args : List V) (kwargs : List (String × V)) (errors : List EngineError)
    (h1 : declared_url_vars ∩ reserved_kwargs = ∅)
    (h2 : declared_url_vars \ (params \ reserved_kwargs) = ∅)
    (h3 : (params \ reserved_kwargs) \ declared_url_vars = ∅)
    (h4 : declared_url_vars \
      ((annots.filter (fun p => !decide (p.1 ∈ reserved_kwargs))).map
        Prod.fst).toFinset = ∅)
    (herr : engine (annots.filter (fun p => !decide (p.1 ∈ reserved_kwargs)))
      url_vars_values = .error errors) :
    validate_url_vars_decision reserved_kwargs engine params annots
        declared_url_vars url_vars_values args kwargs
      = .errorList (errors.map mkValidationError) 400
    ∧ ∀ e : EngineError, mkValidationError e
        = { type := ErrorType.validation
            subtype := some e.type
            message := String.intercalate "." e.loc ++ ": " ++ e.msg } := by
  refine ⟨?_, fun e => rfl⟩
  rw [validate_url_vars_decision_checks_pass reserved_kwargs engine params
    annots declared_url_vars url_vars_values args kwargs h1 h2 h3 h4, herr]

/-- C3 witness: the theorem at a concrete input with a failing engine. -/
theorem C3_schema_failure_short_circuits_witness :
    validate_url_vars_decision (∅ : Finset String) engFail
        ({"id"} : Finset String) [("id", ())] ({"id"} : Finset String)
        [("id", "abc")] [] []
      = .errorList
          ([{ type := "int_parsing", loc := ["id"], msg := "bad" }].map
            mkValidationError) 400
    ∧ ∀ e : EngineError, mkValidationError e
        = { type := ErrorType.validation
            subtype := some e.type
            message := String.intercalate "." e.loc ++ ": " ++ e.msg } :=
  C3_schema_failure_short_circuits ∅ engFail {"id"} [("id", ())] {"id"}
    [("id", "abc")] [] [] [{ type := "int_parsing", loc := ["id"], msg := "bad" }]
    (by decide) (by decide) (by decide) (by decide) rfl

/-- C5: when the handler's parameter name set minus the reserved
keywords equals the route's declared variable set and every such
parameter carries a type annotation, no structural check fails: the
decision is never a raised configuration exception. -/
theorem C5_wellformed_no_fatal {A V : Type}
    (reserved_kwargs : Finset String) (engine : UrlEngine A V)
    (params : Finset String) (annots : List (String × A))
    (declared_url_vars : Finset String) (url_vars_values : List (String × V))
    (args : List V) (kwargs : List (String × V))
    (hparams : params \ reserved_kwargs = declared_url_vars)
    (hann : ∀ p ∈ declared_url_vars, p ∈ annots.map Prod.fst)
    (e : ConfigError) :
    validate_url_vars_decision reserved_kwargs engine params annots
      declared_url_vars url_vars_values args kwargs ≠ .fatal e := by
  subst hparams
  intro he
  have h1 : (params \ reserved_kwargs) ∩ reserved_kwargs = ∅ := by
    ext x
    simp only [Finset.mem_inter, Finset.mem_sdiff, Finset.not_mem_empty,
      iff_false]
    tauto
  have h2 : (params \ reserved_kwargs) \ (params \ reserved_kwargs) = ∅ := by
    simp
  have h4 : (params \ reserved_kwargs) \
      ((annots.filter (fun p => !decide (p.1 ∈ reserved_kwargs))).map
        Prod.fst).toFinset = ∅ := by
    rw [Finset.sdiff_eq_empty_iff_subset]
    intro p hp
    have hpr : p ∉ reserved_kwargs := (Finset.mem_sdiff.mp hp).2
    obtain ⟨q, hq, hq1⟩ := List.mem_map.mp (hann p hp)
    rw [List.mem_toFinset, List.mem_map]
    refine ⟨q, List.mem_filter.mpr ⟨hq, ?_⟩, hq1⟩
    simp [hq1, hpr]
  rw [validate_url_vars_decision_checks_pass reserved_kwargs engine params
    annots (params \ reserved_kwargs) url_vars_values args kwargs
    h1 h2 h2 h4] at he
  cases hres : engine
      (annots.filter (fun p => !decide (p.1 ∈ reserved_kwargs)))
      url_vars_values <;>
    rw [hres] at he <;> exact Decision.noConfusion he

/-- C5 witness: a concrete well-wired handler never yields the
reserved-keyword exception. -/
theorem C5_wellformed_no_fatal_witness :
    validate_url_vars_decision (∅ : Finset String) engTrivial
        ({"id"} : Finset String) [("id", ())] ({"id"} : Finset String)
        ([] : List (String × String)) [] []
      ≠ .fatal (.reservedKeyword ∅) :=
  C5_wellformed_no_fatal ∅ engTrivial {"id"} [("id", ())] {"id"} [] [] []
    (by decide) (by decide) (.reservedKeyword ∅)

/-- C6: on schema-validation success the handler is invoked with the
original keyword arguments merged with the validated values — a
validated value overrides any same-named pre-existing keyword argument,
a key absent from the validated values keeps its original binding — and
the handler's return value is passed through unchanged. -/
theorem C6_success_merges_validated_kwargs {A V R : Type}
    (reserved_kwargs : Finset String) (engine : UrlEngine A V)
    (params : Finset String) (annots : List (String × A))
    (call : List V → List (String × V) → R)
    (declared_url_vars : Finset String) (url_vars_values : List (String × V))
    (args : List V) (kwargs : List (String × V))
    (validated_values : List (String × V))
    (h1 : declared_url_vars ∩ reserved_kwargs = ∅)
    (h2 : declared_url_vars \ (params \ reserved_kwargs) = ∅)
    (h3 : (params \ reserved_kwargs) \ declared_url_vars = ∅)
    (h4 : declared_url_vars \
      ((annots.filter (fun p => !decide (p.1 ∈ reserved_kwargs))).map
        Prod.fst).toFinset = ∅)
    (hok : engine (annots.filter (fun p => !decide (p.1 ∈ reserved_kwargs)))
      url_vars_values = .ok validated_values) :
    validate_url_vars_decision reserved_kwargs engine params annots
        declared_url_vars url_vars_values args kwargs
      = .invoke args (dictMerge kwargs validated_values)
    ∧ validate_url_vars_call reserved_kwargs engine params annots call
        declared_url_vars url_vars_values args kwargs
      = .handlerResult (call args (dictMerge kwargs validated_values))
    ∧ (∀ k v, (validated_values.map Prod.fst).Nodup →
        dictLookup validated_values k = some v →
        dictLookup (dictMerge kwargs validated_values) k = some v)
    ∧ (∀ k, dictLookup validated_values k = none →
        dictLookup (dictMerge kwargs validated_values) k = dictLookup kwargs k) := by
  have hd : validate_url_vars_decision reserved_kwargs engine params annots
      declared_url_vars url_vars_values args kwargs
    = .invoke args (dictMerge kwargs validated_values) := by
    rw [validate_url_vars_decision_checks_pass reserved_kwargs engine params
      annots declared_url_vars url_vars_values args kwargs h1 h2 h3 h4, hok]
  refine ⟨hd, ?_, ?_, ?_⟩
  · rw [validate_url_vars_call, hd]
    rfl
  · intro k v hnd hl
    exact dictLookup_dictMerge_of_some kwargs validated_values k v hnd hl
  · intro k hl
    exact dictLookup_dictMerge_of_none kwargs validated_values k hl

/-- C6 witness: at a concrete input the handler receives the merged
keyword arguments and the validated `id` overrides the stale one. -/
theorem C6_success_merges_validated_kwargs_witness :
    (validate_url_vars_decision (∅ : Finset String) engOk
        ({"id"} : Finset String) [("id", ())] ({"id"} : Finset String)
        [("id", "42")] [] [("id", "0"), ("x", "7")]
      = .invoke [] (dictMerge [("id", "0"), ("x", "7")] [("id", "42")]))
    ∧ (validate_url_vars_call (∅ : Finset String) engOk
        ({"id"} : Finset String) [("id", ())] (fun _ k => k)
        ({"id"} : Finset String) [("id", "42")] [] [("id", "0"), ("x", "7")]
      = .handlerResult (dictMerge [("id", "0"), ("x", "7")] [("id", "42")]))
    ∧ dictLookup (dictMerge [("id", "0"), ("x", "7")] [("id", "42")]) "id"
        = some "42" :=
  ⟨(C6_success_merges_validated_kwargs ∅ engOk {"id"} [("id", ())]
      (fun _ k => k) {"id"} [("id", "42")] [] [("id", "0"), ("x", "7")]
      [("id", "42")] (by decide) (by decide) (by decide) (by decide) rfl).1,
   (C6_success_merges_validated_kwargs ∅ engOk {"id"} [("id", ())]
      (fun _ k => k) {"id"} [("id", "42")] [] [("id", "0"), ("x", "7")]
      [("id", "42")] (by decide) (by decide) (by decide) (by decide) rfl).2.1,
   (C6_success_merges_validated_kwargs ∅ engOk {"id"} [("id", ())]
      (fun _ k => k) {"id"} [("id", "42")] [] [("id", "0"), ("x", "7")]
      [("id", "42")] (by decide) (by decide) (by decide) (by decide) rfl).2.2.1
     "id" "42" (by decide) (by decide)⟩

/-! ## Cross-cutting claims -/

/-- C7: validation is deterministic in the request: two calls of either
wrapped handler with the same route variables, the same handler
signature and annotations, and the same request values, positional and
keyword arguments, yield the same decision — so the same success or
failure outcome and, on failure, identical error payloads. -/
theorem C7_validation_deterministic {A V : Type}
    (reserved_kwargs : Finset String) (engine : UrlEngine A V)
    (params params2 : Finset String) (annots annots2 : List (String × A))
    (declared declared2 : Finset String) (vals vals2 : List (String × V))
    (args args2 : List V) (kwargs kwargs2 : List (String × V))
    (pn pn2 : String) (strFn strFn2 : List (String × V) → String)
    (rparams rparams2 : Finset String)
    (rannots rannots2 : List (String × SchemaAnnot V))
    (rvals rvals2 : List (String × V)) (rargs rargs2 : List V)
    (rkwargs rkwargs2 : List (String × V))
    (h1 : params = params2) (h2 : annots = annots2)
    (h3 : declared = declared2) (h4 : vals = vals2)
    (h5 : args = args2) (h6 : kwargs = kwargs2)
    (h7 : pn = pn2) (h8 : strFn = strFn2)
    (h9 : rparams = rparams2) (h10 : rannots = rannots2)
    (h11 : rvals = rvals2) (h12 : rargs = rargs2)
    (h13 : rkwargs = rkwargs2) :
    validate_url_vars_decision reserved_kwargs engine params annots
        declared vals args kwargs
      = validate_url_vars_decision reserved_kwargs engine params2 annots2
        declared2 vals2 args2 kwargs2
    ∧ validate_request_vals_decision pn strFn rparams rannots rvals
        rargs rkwargs
      = validate_request_vals_decision pn2 strFn2 rparams2 rannots2 rvals2
        rargs2 rkwargs2 := by
  subst h1 h2 h3 h4 h5 h6 h7 h8 h9 h10 h11 h12 h13
  exact ⟨rfl, rfl⟩

/-- C7 witness: two identical concrete calls of each validator agree. -/
theorem C7_validation_deterministic_witness :
    validate_url_vars_decision (∅ : Finset String) engFail
        ({"id"} : Finset String) [("id", ())] ({"id"} : Finset String)
        [("id", "abc")] [] []
      = validate_url_vars_decision (∅ : Finset String) engFail
        ({"id"} : Finset String) [("id", ())] ({"id"} : Finset String)
        [("id", "abc")] [] []
    ∧ validate_request_vals_decision "body" (fun _ => "x: 1")
        (∅ : Finset String) ([] : List (String × SchemaAnnot String))
        [("x", "1")] [] []
      = validate_request_vals_decision "body" (fun _ => "x: 1")
        (∅ : Finset String) ([] : List (String × SchemaAnnot String))
        [("x", "1")] [] [] :=
  C7_validation_deterministic ∅ engFail {"id"} {"id"} [("id", ())]
    [("id", ())] {"id"} {"id"} [("id", "abc")] [("id", "abc")] [] [] [] []
    "body" "body" (fun _ => "x: 1") (fun _ => "x: 1") ∅ ∅ [] []
    [("x", "1")] [("x", "1")] [] [] [] []
    rfl rfl rfl rfl rfl rfl rfl rfl rfl rfl rfl rfl rfl

/-- C10: whenever either validator's decision is to invoke the handler,
the positional arguments passed to the handler are exactly those passed
to the wrapper; only keyword arguments are ever added or overridden.
The two request-part decorators are `validate_request_vals` instances,
so the second conjunct, quantified over the slot name and getter result,
covers both of them. -/
theorem C10_positional_args_preserved {A V : Type}
    (reserved_kwargs : Finset String) (engine : UrlEngine A V)
    (params : Finset String) (annots : List (String × A))
    (declared : Finset String) (vals : List (String × V))
    (args : List V) (kwargs : List (String × V))
    (pn : String) (strFn : List (String × V) → String)
    (rparams : Finset String) (rannots : List (String × SchemaAnnot V))
    (rvals : List (String × V)) (rargs : List V)
    (rkwargs : List (String × V)) :
    (∀ a k, validate_url_vars_decision reserved_kwargs engine params annots
        declared vals args kwargs = .invoke a k → a = args)
    ∧ (∀ a k, validate_request_vals_decision pn strFn rparams rannots rvals
        rargs rkwargs = .invoke a k → a = rargs) := by
  constructor
  · intro a k h
    by_cases h1 : declared ∩ reserved_kwargs = ∅
    · by_cases h2 : declared \ (params \ reserved_kwargs) = ∅
      · by_cases h3 : (params \ reserved_kwargs) \ declared = ∅
        · by_cases h4 : declared \
              ((annots.filter (fun p => !decide (p.1 ∈ reserved_kwargs))).map
                Prod.fst).toFinset = ∅
          · rw [validate_url_vars_decision_checks_pass reserved_kwargs engine
              params annots declared vals args kwargs h1 h2 h3 h4] at h
            cases hres : engine
                (annots.filter (fun p => !decide (p.1 ∈ reserved_kwargs)))
                vals with
            | error es =>
              rw [hres] at h
              exact Decision.noConfusion h
            | ok vs =>
              rw [hres] at h
              exact ((Decision.invoke.injEq _ _ _ _).mp h).1.symm
          · simp [validate_url_vars_decision, h1, h2, h3, h4] at h
        · simp [validate_url_vars_decision, h1, h2, h3] at h
      · simp [validate_url_vars_decision, h1, h2] at h
    · simp [validate_url_vars_decision, h1] at h
  · intro a k h
    by_cases hp : pn ∈ rparams
    · simp only [validate_request_vals_decision, if_pos hp] at h
      cases hl : dictLookup rannots pn with
      | none =>
        rw [hl] at h
        exact Decision.noConfusion h
      | some S =>
        rw [hl] at h
        by_cases hs : S.isBaseModelSubclass
        · simp only [hs, not_true_eq_false, if_neg, ite_false] at h
          cases hi : S.instantiate rvals with
          | error es =>
            rw [hi] at h
            exact Decision.noConfusion h
          | ok inst =>
            rw [hi] at h
            exact ((Decision.invoke.injEq _ _ _ _).mp h).1.symm
        · simp [hs] at h
    · simp only [validate_request_vals_decision, if_neg hp] at h
      by_cases he : strictBaseModelAccepts rvals
      · simp only [he, ite_true] at h
        exact ((Decision.invoke.injEq _ _ _ _).mp h).1.symm
      · simp [he] at h

/-- C10 witness: at concrete invoking inputs for both validators, the
handler's positional arguments equal the wrapper's. -/
theorem C10_positional_args_preserved_witness :
    (["p0"] : List String) = ["p0"] ∧ (["q0"] : List String) = ["q0"] :=
  ⟨(C10_positional_args_preserved ∅ engOk {"id"} [("id", ())] {"id"}
      [("id", "42")] ["p0"] [] "body" (fun _ => "") ∅ [] [] ["q0"] []).1
      ["p0"] [("id", "42")] (by decide),
   (C10_positional_args_preserved ∅ engOk {"id"} [("id", ())] {"id"}
      [("id", "42")] ["p0"] [] "body" (fun _ => "") ∅ [] [] ["q0"] []).2
      ["q0"] [] (by decide)⟩

end FlaskIOValidator
